import Mathlib

/-!
Verification of the HomeStand RSVP reservation subsystem and event CRUD.

The definitions below are a shallow embedding of `SourceCode/RSVP_API.py`
and `SourceCode/EventsAPI.py`.  The Firestore document store is modelled as
association lists keyed by document id; the store's transactional
read-modify-write is modelled by the sequential semantics of each operation
(every raise in the Python source happens before any write, and writes inside
a `@transactional` block either all commit or are discarded, so an operation
either returns a new store state or an error and leaves the state untouched).
Timestamps are modelled as natural numbers (the ISO strings of the source are
totally ordered and only ever compared); the clock reads of the source become
explicit `now` parameters.
-/

namespace HomeStand

/-- The fields of an event document that `RSVP_API.py` reads.  The source
reads `capacity` and `rsvp_count` with `dict.get(key, 0)` (default 0 when the
field is absent), hence `Option Nat`; `start_time` is absent, empty (falsy in
Python) or a parseable timestamp, modelled as `Option Nat`. -/
structure Event where
  capacity : Option Nat
  rsvp_count : Option Nat
  start_time : Option Nat
deriving DecidableEq, Repr

/-- A reservation document as written by `create_rsvp`: `user_id`,
`event_id`, `status` (the source uses the strings "active"/"cancelled") and
the `rsvp_at` timestamp. -/
structure Rsvp where
  user_id : String
  event_id : String
  status : String
  rsvp_at : Nat
deriving DecidableEq, Repr

/-- The two Firestore collections used by the RSVP subsystem, each keyed by
document id. -/
structure DB where
  events : List (String × Event)
  rsvps : List (String × Rsvp)
deriving DecidableEq, Repr

/-- The exception taxonomy of `RSVP_API.py`. -/
inductive RsvpError where
  | RSVPNotFound
  | RSVPAlreadyExists
  | EventFull
  | CancellationNotAllowed
  | EventNotFound
deriving DecidableEq, Repr

/-- `events_col.document(event_id).get()`: look a document up by id. -/
def findEvent (db : DB) (event_id : String) : Option Event :=
  (db.events.find? (fun p => p.1 == event_id)).map (fun p => p.2)

/-- `rsvp_col.document(rsvp_id).get()`: look a reservation up by id. -/
def findRsvp (db : DB) (rsvp_id : String) : Option Rsvp :=
  (db.rsvps.find? (fun p => p.1 == rsvp_id)).map (fun p => p.2)

/-- The equality query of `create_rsvp` step 2 and of `check_user_rsvp`:
is there a reservation with this `user_id`, this `event_id` and
status "active"?  (`limit(1)` followed by `len > 0` is existence.) -/
def hasActiveRsvp (db : DB) (user_id event_id : String) : Bool :=
  db.rsvps.any (fun p =>
    p.2.user_id == user_id && p.2.event_id == event_id && p.2.status == "active")

/-- `transaction.update(event_ref, {"rsvp_count": c})`: overwrite the
`rsvp_count` field of the document keyed `event_id`, leaving every other
document and field unchanged. -/
def setEventCount (es : List (String × Event)) (event_id : String) (c : Nat) :
    List (String × Event) :=
  es.map (fun p => if p.1 == event_id then (p.1, { p.2 with rsvp_count := some c }) else p)

/-- `transaction.update(rsvp_ref, {"status": st})`: overwrite the `status`
field of the reservation keyed `rsvp_id`. -/
def setRsvpStatus (rs : List (String × Rsvp)) (rsvp_id st : String) :
    List (String × Rsvp) :=
  rs.map (fun p => if p.1 == rsvp_id then (p.1, { p.2 with status := st }) else p)

/-- `create_rsvp(db, event_id, user_id)` of `RSVP_API.py`.  `newId` is the
store-assigned id of the new reservation document and `now` the clock read.
The checks appear in source order: event existence, duplicate active RSVP,
capacity pre-check, then the transactional re-read with its existence and
capacity re-checks before the two writes. -/
def create_rsvp (db : DB) (event_id user_id newId : String) (now : Nat) :
    Except RsvpError DB :=
  match findEvent db event_id with
  | none => .error .EventNotFound
  | some eventData =>
    if hasActiveRsvp db user_id event_id then
      .error .RSVPAlreadyExists
    else if eventData.rsvp_count.getD 0 ≥ eventData.capacity.getD 0 then
      .error .EventFull
    else
      match findEvent db event_id with
      | none => .error .EventNotFound
      | some eventInfo =>
        if eventInfo.rsvp_count.getD 0 ≥ eventInfo.capacity.getD 0 then
          .error .EventFull
        else
          .ok { events := setEventCount db.events event_id (eventInfo.rsvp_count.getD 0 + 1),
                rsvps := (newId, { user_id := user_id, event_id := event_id,
                                   status := "active", rsvp_at := now }) :: db.rsvps }

/-- `cancel_rsvp(db, rsvp_id, user_id)` of `RSVP_API.py`.  Checks in source
order: reservation existence, ownership, parent event existence, then the
start-time guard `datetime.utcnow() > event_dt` (a strict comparison, and
skipped entirely when `start_time` is absent or falsy).  The transaction
re-reads both documents, sets status "cancelled" with no check of the current
status, and decrements `rsvp_count` via `max(0, count - 1)`. -/
def cancel_rsvp (db : DB) (rsvp_id user_id : String) (now : Nat) :
    Except RsvpError DB :=
  match findRsvp db rsvp_id with
  | none => .error .RSVPNotFound
  | some rsvpData =>
    if rsvpData.user_id != user_id then
      .error .CancellationNotAllowed
    else
      match findEvent db rsvpData.event_id with
      | none => .error .EventNotFound
      | some eventData =>
        if (match eventData.start_time with
            | some t => decide (t < now)
            | none => false) then
          .error .CancellationNotAllowed
        else
          .ok { events := setEventCount db.events rsvpData.event_id
                            (max 0 (eventData.rsvp_count.getD 0 - 1)),
                rsvps := setRsvpStatus db.rsvps rsvp_id "cancelled" }

/-- `get_event_rsvp_count(db, event_id)` of `RSVP_API.py`: the stored counter
with default 0, and 0 when the event does not exist. -/
def get_event_rsvp_count (db : DB) (event_id : String) : Nat :=
  match findEvent db event_id with
  | some ev => ev.rsvp_count.getD 0
  | none => 0

/-- `check_user_rsvp(db, event_id, user_id)` of `RSVP_API.py`. -/
def check_user_rsvp (db : DB) (event_id user_id : String) : Bool :=
  hasActiveRsvp db user_id event_id

/-- One reservation-engine call, for reasoning about sequences of operations:
either a `create_rsvp` (with the store-assigned id of the document it would
create and the clock reading) or a `cancel_rsvp`. -/
inductive Op where
  | create (event_id user_id newId : String) (now : Nat)
  | cancel (rsvp_id user_id : String) (now : Nat)
deriving DecidableEq, Repr

/-- Run one call against the store.  A call that raises leaves the store
unchanged: in the source every raise happens before the transaction commits,
so no write survives a failed call. -/
def applyOp (db : DB) : Op → DB
  | .create e u i n =>
    match create_rsvp db e u i n with
    | .ok db' => db'
    | .error _ => db
  | .cancel r u n =>
    match cancel_rsvp db r u n with
    | .ok db' => db'
    | .error _ => db

/-- Run a sequence of reservation-engine calls. -/
def runOps (db : DB) (ops : List Op) : DB := ops.foldl applyOp db

/-- The number of reservation documents for `event_id` with status "active"
(the aggregation the denormalized counter is supposed to track). -/
def activeCountFor (rs : List (String × Rsvp)) (event_id : String) : Nat :=
  (rs.filter (fun p => p.2.event_id == event_id && p.2.status == "active")).length

/-- The counter-consistency invariant of the specification: every event's
stored `rsvp_count` (default 0) equals its number of active reservations. -/
def counterConsistent (db : DB) : Bool :=
  db.events.all (fun p => p.2.rsvp_count.getD 0 == activeCountFor db.rsvps p.1)

/-- Side conditions under which an operation is benign: a create uses a fresh
document id (Firestore auto-ids are unique), and a cancel does not target a
reservation that is already cancelled. -/
def opOk (db : DB) : Op → Bool
  | .create _ _ i _ => db.rsvps.all (fun p => p.1 != i)
  | .cancel r _ _ =>
    match findRsvp db r with
    | some rv => rv.status == "active"
    | none => true

/-- `opOk` holding at every step of a sequence. -/
def opsOk : DB → List Op → Bool
  | _, [] => true
  | db, op :: rest => opOk db op && opsOk (applyOp db op) rest

/-- One element of the list returned by `get_user_rsvps`: the reservation's
fields, its document id, and the parent event's document embedded. -/
structure RsvpEntry where
  id : String
  user_id : String
  event_id : String
  status : String
  rsvp_at : Nat
  event : Event
deriving DecidableEq, Repr

/-- Comparison of two parsed `start_time` timestamps.  The sort of
`get_user_rsvps` consults it only on lists in which every entry has a
`start_time` (on any other list it never gets to compare: see
`get_user_rsvps`), so the `getD 0` default is never reached there. -/
def timeLe (x y : RsvpEntry) : Bool :=
  x.event.start_time.getD 0 ≤ y.event.start_time.getD 0

/-- The unsorted loop of `get_user_rsvps`: the user's active reservations in
store order, each embedded with its parent event, reservations whose event no
longer exists silently skipped (`continue` in the source). -/
def activeEntries (db : DB) (user_id : String) : List RsvpEntry :=
  (db.rsvps.filter (fun p => p.2.user_id == user_id && p.2.status == "active")).filterMap
    (fun p => (findEvent db p.2.event_id).map
      (fun ev => { id := p.1, user_id := p.2.user_id, event_id := p.2.event_id,
                   status := p.2.status, rsvp_at := p.2.rsvp_at, event := ev }))

/-- `get_user_rsvps(db, user_id)` of `RSVP_API.py`, including the failure mode
of its final `sorted` call.  The source's sort key is the naive `datetime.max`
for an entry whose event has no (or a falsy) `start_time`, and a
timezone-aware datetime otherwise: the repository stores Z-suffixed
`start_time` strings (`format_datetime_for_api` in `Events_UI.py` appends
"Z"), which `datetime.fromisoformat` parses as aware after the
`"Z" → "+00:00"` replacement.  Python refuses to order an aware datetime
against a naive one, so `sorted` raises an uncaught TypeError (modelled as
`none`) whenever the entries mix present and missing `start_time`s — ordering
the two classes needs at least one aware/naive comparison, and the first one
raises.  With every `start_time` present the list is sorted ascending
(`List.mergeSort` is stable and ascending like Python `sorted`); with none
present every key is the same `datetime.max`, so the stable sort returns the
entries in store order. -/
def get_user_rsvps (db : DB) (user_id : String) : Option (List RsvpEntry) :=
  if (activeEntries db user_id).all (fun x => x.event.start_time.isSome) then
    some ((activeEntries db user_id).mergeSort timeLe)
  else if (activeEntries db user_id).all (fun x => x.event.start_time.isNone) then
    some (activeEntries db user_id)
  else
    none

/-- A Firestore field value, as far as `EventsAPI.py` is concerned: the file
only ever compares values and copies them around. -/
inductive Val where
  | str (s : String)
  | nat (n : Nat)
  | bool (b : Bool)
  | null
deriving DecidableEq, Repr

/-- An event document of `EventsAPI.py`, modelled as a Python dict: an
association list of field names and values, looked up by first match. -/
abbrev Doc := List (String × Val)

/-- `d.get(k)`: the value of field `k`, if present. -/
def getField (d : Doc) (k : String) : Option Val :=
  (d.find? (fun p => p.1 == k)).map (fun p => p.2)

/-- `d.pop(k, None)`: drop every binding of field `k`. -/
def eraseField (d : Doc) (k : String) : Doc :=
  d.filter (fun p => !(p.1 == k))

/-- `d[k] = v` on a Python dict: field `k` now maps to `v`, every other field
is unchanged. -/
def insertField (d : Doc) (k : String) (v : Val) : Doc :=
  eraseField d k ++ [(k, v)]

/-- `doc_ref.update(u)`: write each field of `u` onto the stored document,
later bindings overriding earlier ones, all other fields untouched. -/
def mergeFields (d : Doc) (u : Doc) : Doc :=
  u.foldl (fun acc p => insertField acc p.1 p.2) d

/-- The exception taxonomy of `EventsAPI.py`. -/
inductive EventsError where
  | EventNotFound
  | PermissionDenied
deriving DecidableEq, Repr

/-- The `events` collection as seen by `EventsAPI.py`. -/
structure EventsDB where
  events : List (String × Doc)
deriving DecidableEq, Repr

/-- `update_event(db, event_id, updates, user_id)` of `EventsAPI.py`.  `now`
is the `_now_iso()` clock read.  `_ensure_exists_and_owner` checks existence
and that the stored `created_by` equals the acting user id; then the copy of
`updates` has `created_by` and `created_at` popped, `updated_at` set to the
clock, and is applied to the stored document with Firestore `update`
semantics.  Returns the new store and the updated document. -/
def update_event (db : EventsDB) (event_id : String) (updates : Doc) (user_id : String)
    (now : Val) : Except EventsError (EventsDB × Doc) :=
  match db.events.find? (fun p => p.1 == event_id) with
  | none => .error .EventNotFound
  | some pr =>
    if getField pr.2 "created_by" = some (Val.str user_id) then
      let upd := insertField (eraseField (eraseField updates "created_by") "created_at")
                   "updated_at" now
      let newDoc := mergeFields pr.2 upd
      .ok ({ events := db.events.map (fun p => if p.1 == event_id then (p.1, newDoc) else p) },
           newDoc)
    else
      .error .PermissionDenied

/-! Concrete store states used to instantiate the theorems below. -/

/-- A full event: capacity 1, one seat taken. -/
def evW1 : Event := { capacity := some 1, rsvp_count := some 1, start_time := none }

/-- Store holding only the full event `evW1`. -/
def dbW1 : DB := { events := [("E", evW1)], rsvps := [] }

/-- Store with a capacity-0 event and no reservations at all. -/
def dbC2 : DB :=
  { events := [("Z", { capacity := some 0, rsvp_count := some 0, start_time := none })],
    rsvps := [] }

/-- A capacity-0 event whose stored counter is 7. -/
def evW2 : Event := { capacity := some 0, rsvp_count := some 7, start_time := none }

/-- Store holding only `evW2`. -/
def dbW2 : DB := { events := [("Z", evW2)], rsvps := [] }

/-- Empty two-seat event, starting point of the double-cancel counterexample. -/
def dbC3 : DB :=
  { events := [("E", { capacity := some 2, rsvp_count := some 0, start_time := none })],
    rsvps := [] }

/-- Two users reserve, then the first cancels the same reservation twice. -/
def opsC3 : List Op :=
  [.create "E" "A" "r1" 0, .create "E" "B" "r2" 0, .cancel "r1" "A" 0, .cancel "r1" "A" 0]

/-- Empty two-seat event, starting point of a benign operation sequence. -/
def dbW3 : DB :=
  { events := [("E", { capacity := some 2, rsvp_count := some 0, start_time := none })],
    rsvps := [] }

/-- Two users reserve, the first cancels once and reserves again. -/
def opsW3 : List Op :=
  [.create "E" "A" "r1" 0, .create "E" "B" "r2" 0, .cancel "r1" "A" 0, .create "E" "A" "r3" 1]

/-- An active reservation held by user A on event E. -/
def rW4 : Rsvp := { user_id := "A", event_id := "E", status := "active", rsvp_at := 3 }

/-- The event of `rW4`, far from full. -/
def evW4 : Event := { capacity := some 10, rsvp_count := some 1, start_time := none }

/-- Store where user A already holds an active reservation on event E. -/
def dbW4 : DB := { events := [("E", evW4)], rsvps := [("r1", rW4)] }

/-- An active reservation owned by user A. -/
def rW5 : Rsvp := { user_id := "A", event_id := "E", status := "active", rsvp_at := 3 }

/-- Store where `rW5` exists and user B does not own it. -/
def dbW5 : DB :=
  { events := [("E", { capacity := some 10, rsvp_count := some 1, start_time := none })],
    rsvps := [("r1", rW5)] }

/-- An active reservation owned by user A on the started event `evW6`. -/
def rW6 : Rsvp := { user_id := "A", event_id := "E", status := "active", rsvp_at := 3 }

/-- An event that started at time 5. -/
def evW6 : Event := { capacity := some 10, rsvp_count := some 1, start_time := some 5 }

/-- Store pairing `rW6` with `evW6`. -/
def dbW6 : DB := { events := [("E", evW6)], rsvps := [("r1", rW6)] }

/-- Store for the boundary case: the event's `start_time` equals the clock. -/
def dbC6 : DB :=
  { events := [("E", { capacity := some 5, rsvp_count := some 1, start_time := some 5 })],
    rsvps := [("r1", { user_id := "A", event_id := "E", status := "active", rsvp_at := 0 })] }

/-- A reservation that is already cancelled. -/
def rW7 : Rsvp := { user_id := "A", event_id := "E", status := "cancelled", rsvp_at := 0 }

/-- The parent event of `rW7`, counter already down to 0. -/
def evW7 : Event := { capacity := some 3, rsvp_count := some 0, start_time := none }

/-- Store pairing the cancelled `rW7` with `evW7`. -/
def dbW7 : DB := { events := [("E", evW7)], rsvps := [("r1", rW7)] }

/-- A stored event document with owner, creation time and a stale update time. -/
def docW8 : Doc :=
  [("created_by", .str "alice"), ("created_at", .nat 1), ("title", .str "t"),
   ("updated_at", .nat 2)]

/-- An update that tries to overwrite `created_by` and `created_at`. -/
def updW8 : Doc :=
  [("created_by", .str "mallory"), ("created_at", .nat 99), ("location", .str "x")]

/-- Events store holding only `docW8`. -/
def dbW8 : EventsDB := { events := [("E", docW8)] }

/-- The document produced by applying `updW8` to `docW8` at clock 5. -/
def newDocW8 : Doc :=
  [("created_by", .str "alice"), ("created_at", .nat 1), ("title", .str "t"),
   ("location", .str "x"), ("updated_at", .nat 5)]

/-- The events store after the update. -/
def dbW8' : EventsDB := { events := [("E", newDocW8)] }

/-- Store with an orphaned active reservation: its event was deleted. -/
def dbC9 : DB :=
  { events := [],
    rsvps := [("r1", { user_id := "A", event_id := "E", status := "active", rsvp_at := 0 })] }

/-- Store where user A's two active reservations point at one event with a
`start_time` and one without: the mix on which the source's sort raises. -/
def dbC9m : DB :=
  { events := [("E1", { capacity := some 5, rsvp_count := some 1, start_time := some 5 }),
               ("E2", { capacity := some 5, rsvp_count := some 1, start_time := none })],
    rsvps := [("r1", { user_id := "A", event_id := "E1", status := "active", rsvp_at := 0 }),
              ("r2", { user_id := "A", event_id := "E2", status := "active", rsvp_at := 0 })] }

/-- Store where user A's two active reservations point at events that both
lack a `start_time`. -/
def dbW9 : DB :=
  { events := [("E1", { capacity := some 5, rsvp_count := some 1, start_time := none }),
               ("E2", { capacity := some 5, rsvp_count := some 1, start_time := none })],
    rsvps := [("r1", { user_id := "A", event_id := "E1", status := "active", rsvp_at := 0 }),
              ("r2", { user_id := "A", event_id := "E2", status := "active", rsvp_at := 1 })] }

end HomeStand

namespace HomeStand

/-! Helper lemmas. -/

lemma findRsvp_mem (db : DB) (rid : String) (r : Rsvp) (h : findRsvp db rid = some r) :
    (rid, r) ∈ db.rsvps := by
  unfold findRsvp at h
  cases hf : db.rsvps.find? (fun p => p.1 == rid) with
  | none => rw [hf] at h; cases h
  | some q =>
    rw [hf] at h
    have hq := List.find?_some hf
    have hqm := List.mem_of_find?_eq_some hf
    obtain ⟨qk, qv⟩ := q
    simp only [Option.map_some', Option.some.injEq] at h
    simp only [beq_iff_eq] at hq
    subst hq; subst h
    exact hqm

lemma findEvent_mem (db : DB) (eid : String) (ev : Event) (h : findEvent db eid = some ev) :
    (eid, ev) ∈ db.events := by
  unfold findEvent at h
  cases hf : db.events.find? (fun p => p.1 == eid) with
  | none => rw [hf] at h; cases h
  | some q =>
    rw [hf] at h
    have hq := List.find?_some hf
    have hqm := List.mem_of_find?_eq_some hf
    obtain ⟨qk, qv⟩ := q
    simp only [Option.map_some', Option.some.injEq] at h
    simp only [beq_iff_eq] at hq
    subst hq; subst h
    exact hqm

lemma activeCountFor_cons (i : String) (r : Rsvp) (rs : List (String × Rsvp)) (e : String) :
    activeCountFor ((i, r) :: rs) e =
      activeCountFor rs e + (if r.event_id = e ∧ r.status = "active" then 1 else 0) := by
  by_cases h : r.event_id = e ∧ r.status = "active"
  · simp [activeCountFor, List.filter_cons, h.1, h.2, Nat.add_comm]
  · rw [Decidable.not_and_iff_or_not] at h
    rcases h with h | h <;> simp [activeCountFor, List.filter_cons, h]

lemma setRsvpStatus_eq_of_not_mem (rs : List (String × Rsvp)) (rid st : String)
    (h : ∀ p ∈ rs, p.1 ≠ rid) :
    setRsvpStatus rs rid st = rs := by
  unfold setRsvpStatus
  conv_rhs => rw [← List.map_id rs]
  apply List.map_congr_left
  intro p hp
  simp [h p hp]

lemma setRsvpStatus_keys (rs : List (String × Rsvp)) (rid st : String) :
    (setRsvpStatus rs rid st).map (fun p => p.1) = rs.map (fun p => p.1) := by
  unfold setRsvpStatus
  rw [List.map_map]
  apply List.map_congr_left
  intro p _
  by_cases h : p.1 = rid <;> simp [h]

lemma setRsvpStatus_cons (q : String × Rsvp) (rs : List (String × Rsvp)) (rid st : String) :
    setRsvpStatus (q :: rs) rid st =
      (if q.1 == rid then (q.1, { q.2 with status := st }) else q) :: setRsvpStatus rs rid st :=
  rfl

lemma counterConsistent_iff (db : DB) :
    counterConsistent db = true ↔
      ∀ p ∈ db.events, p.2.rsvp_count.getD 0 = activeCountFor db.rsvps p.1 := by
  simp [counterConsistent, List.all_eq_true]

lemma activeCountFor_setRsvpStatus (rs : List (String × Rsvp)) (rid : String) (r : Rsvp)
    (hnd : (rs.map (fun p => p.1)).Nodup) (hmem : (rid, r) ∈ rs) (hact : r.status = "active")
    (e : String) :
    activeCountFor rs e =
      activeCountFor (setRsvpStatus rs rid "cancelled") e +
        (if r.event_id = e then 1 else 0) := by
  induction rs with
  | nil => cases hmem
  | cons q rs ih =>
    obtain ⟨qk, qv⟩ := q
    simp only [List.map_cons, List.nodup_cons] at hnd
    rcases List.mem_cons.mp hmem with heq | hmem'
    · rw [Prod.mk.injEq] at heq
      obtain ⟨rfl, rfl⟩ := heq
      have hrest : setRsvpStatus rs rid "cancelled" = rs := by
        apply setRsvpStatus_eq_of_not_mem
        intro p hp hcontra
        exact hnd.1 (hcontra ▸ List.mem_map_of_mem (fun p => p.1) hp)
      rw [setRsvpStatus_cons]
      simp only [beq_self_eq_true, if_true, hrest]
      rw [activeCountFor_cons, activeCountFor_cons]
      simp [hact]
    · have hne : qk ≠ rid := by
        intro hcontra
        exact hnd.1 (hcontra ▸ List.mem_map_of_mem (fun p => p.1) hmem')
      rw [setRsvpStatus_cons]
      simp only [show (qk == rid) = false by simp [hne], Bool.false_eq_true, if_false]
      rw [activeCountFor_cons, activeCountFor_cons]
      have hrec := ih hnd.2 hmem'
      omega

lemma create_rsvp_ok (db db' : DB) (e u i : String) (n : Nat)
    (h : create_rsvp db e u i n = .ok db') :
    ∃ ev, findEvent db e = some ev ∧
      db' = { events := setEventCount db.events e (ev.rsvp_count.getD 0 + 1),
              rsvps := (i, { user_id := u, event_id := e, status := "active",
                             rsvp_at := n }) :: db.rsvps } := by
  unfold create_rsvp at h
  cases hev : findEvent db e with
  | none => rw [hev] at h; cases h
  | some ev =>
    rw [hev] at h
    refine ⟨ev, rfl, ?_⟩
    cases hdup : hasActiveRsvp db u e with
    | true => rw [hdup] at h; simp at h
    | false =>
      rw [hdup] at h
      by_cases hfull : ev.rsvp_count.getD 0 ≥ ev.capacity.getD 0
      · simp [hfull] at h
      · simp [hfull] at h
        exact h.symm

lemma cancel_rsvp_ok (db db' : DB) (rid u : String) (n : Nat)
    (h : cancel_rsvp db rid u n = .ok db') :
    ∃ r ev, findRsvp db rid = some r ∧ findEvent db r.event_id = some ev ∧
      db' = { events := setEventCount db.events r.event_id
                          (max 0 (ev.rsvp_count.getD 0 - 1)),
              rsvps := setRsvpStatus db.rsvps rid "cancelled" } := by
  unfold cancel_rsvp at h
  split at h
  next => cases h
  next r hr =>
    split at h
    next => cases h
    next hu =>
      split at h
      next => cases h
      next ev hev =>
        split at h
        next => cases h
        next hst =>
          injection h with h'
          exact ⟨r, ev, hr, hev, h'.symm⟩

lemma counterConsistent_create (db db' : DB) (e u i : String) (n : Nat)
    (hinv : counterConsistent db = true)
    (h : create_rsvp db e u i n = .ok db') :
    counterConsistent db' = true := by
  obtain ⟨ev, hev, rfl⟩ := create_rsvp_ok db db' e u i n h
  rw [counterConsistent_iff] at hinv ⊢
  intro p hp
  simp only [setEventCount, List.mem_map] at hp
  obtain ⟨q, hq, rfl⟩ := hp
  have hq' := hinv q hq
  have hevinv : ev.rsvp_count.getD 0 = activeCountFor db.rsvps e := by
    simpa using hinv (e, ev) (findEvent_mem db e ev hev)
  by_cases hqe : q.1 = e
  · simp [hqe, activeCountFor_cons, hevinv]
  · simp [hqe, activeCountFor_cons, Ne.symm hqe, hq']

lemma counterConsistent_cancel (db db' : DB) (rid u : String) (n : Nat)
    (hwf : (db.rsvps.map (fun p => p.1)).Nodup)
    (hok : opOk db (.cancel rid u n) = true)
    (hinv : counterConsistent db = true)
    (h : cancel_rsvp db rid u n = .ok db') :
    counterConsistent db' = true := by
  obtain ⟨r, ev, hr, hev, rfl⟩ := cancel_rsvp_ok db db' rid u n h
  have hact : r.status = "active" := by
    simp only [opOk, hr, beq_iff_eq] at hok
    exact hok
  have hmem : (rid, r) ∈ db.rsvps := findRsvp_mem db rid r hr
  have hcount := activeCountFor_setRsvpStatus db.rsvps rid r hwf hmem hact
  rw [counterConsistent_iff] at hinv ⊢
  intro p hp
  simp only [setEventCount, List.mem_map] at hp
  obtain ⟨q, hq, rfl⟩ := hp
  have hq' := hinv q hq
  have hevinv : ev.rsvp_count.getD 0 = activeCountFor db.rsvps r.event_id := by
    simpa using hinv (r.event_id, ev) (findEvent_mem db r.event_id ev hev)
  by_cases hqe : q.1 = r.event_id
  · have h1 := hcount r.event_id
    simp at h1
    simp [hqe, Nat.zero_max]
    omega
  · have h2 := hcount q.1
    simp only [if_neg (fun hc : r.event_id = q.1 => hqe hc.symm)] at h2
    simp [hqe, hq', h2]

lemma applyOp_create (db : DB) (e u i : String) (n : Nat) :
    applyOp db (Op.create e u i n) =
      match create_rsvp db e u i n with
      | .ok db' => db'
      | .error _ => db :=
  rfl

lemma applyOp_cancel (db : DB) (rid u : String) (n : Nat) :
    applyOp db (Op.cancel rid u n) =
      match cancel_rsvp db rid u n with
      | .ok db' => db'
      | .error _ => db :=
  rfl

lemma applyOp_wf (db : DB) (op : Op)
    (hwf : ((db.rsvps).map (fun p => p.1)).Nodup) (hok : opOk db op = true) :
    (((applyOp db op).rsvps).map (fun p => p.1)).Nodup := by
  cases op with
  | create e u i n =>
    rw [applyOp_create]
    cases hc : create_rsvp db e u i n with
    | error err => exact hwf
    | ok db' =>
      show ((db'.rsvps).map (fun p => p.1)).Nodup
      obtain ⟨ev, hev, rfl⟩ := create_rsvp_ok db db' e u i n hc
      simp only [List.map_cons, List.nodup_cons]
      refine ⟨?_, hwf⟩
      simp only [opOk, List.all_eq_true] at hok
      intro hcontra
      rcases List.mem_map.mp hcontra with ⟨q, hq, hqi⟩
      have := hok q hq
      simp [hqi] at this
  | cancel rid u n =>
    rw [applyOp_cancel]
    cases hc : cancel_rsvp db rid u n with
    | error err => exact hwf
    | ok db' =>
      show ((db'.rsvps).map (fun p => p.1)).Nodup
      obtain ⟨r, ev, hr, hev, rfl⟩ := cancel_rsvp_ok db db' rid u n hc
      simpa [setRsvpStatus_keys] using hwf

lemma applyOp_counterConsistent (db : DB) (op : Op)
    (hwf : ((db.rsvps).map (fun p => p.1)).Nodup) (hok : opOk db op = true)
    (hinv : counterConsistent db = true) :
    counterConsistent (applyOp db op) = true := by
  cases op with
  | create e u i n =>
    rw [applyOp_create]
    cases hc : create_rsvp db e u i n with
    | error err => exact hinv
    | ok db' => exact counterConsistent_create db db' e u i n hinv hc
  | cancel rid u n =>
    rw [applyOp_cancel]
    cases hc : cancel_rsvp db rid u n with
    | error err => exact hinv
    | ok db' => exact counterConsistent_cancel db db' rid u n hwf hok hinv hc

lemma setEventCount_cons (q : String × Event) (es : List (String × Event)) (eid : String)
    (c : Nat) :
    setEventCount (q :: es) eid c =
      (if q.1 == eid then (q.1, { q.2 with rsvp_count := some c }) else q) ::
        setEventCount es eid c :=
  rfl

lemma find_setRsvpStatus (rs : List (String × Rsvp)) (rid st : String) :
    List.find? (fun p => p.1 == rid) (setRsvpStatus rs rid st)
      = (List.find? (fun p => p.1 == rid) rs).map
          (fun p => (p.1, { p.2 with status := st })) := by
  induction rs with
  | nil => rfl
  | cons q rs ih =>
    rw [setRsvpStatus_cons]
    by_cases h : q.1 == rid
    · simp [List.find?_cons_of_pos, h]
    · simp only [Bool.not_eq_true] at h
      simp [h, List.find?_cons_of_neg, ih]

lemma find_setEventCount (es : List (String × Event)) (eid : String) (c : Nat) :
    List.find? (fun p => p.1 == eid) (setEventCount es eid c)
      = (List.find? (fun p => p.1 == eid) es).map
          (fun p => (p.1, { p.2 with rsvp_count := some c })) := by
  induction es with
  | nil => rfl
  | cons q es ih =>
    rw [setEventCount_cons]
    by_cases h : q.1 == eid
    · simp [List.find?_cons_of_pos, h]
    · simp only [Bool.not_eq_true] at h
      simp [h, List.find?_cons_of_neg, ih]

lemma find_eraseField_self (d : Doc) (k : String) :
    (eraseField d k).find? (fun p => p.1 == k) = none := by
  apply List.find?_eq_none.mpr
  intro x hx
  rcases List.mem_filter.mp hx with ⟨_, hpred⟩
  simpa using hpred

lemma getField_eraseField_self (d : Doc) (k : String) :
    getField (eraseField d k) k = none := by
  simp [getField, find_eraseField_self]

lemma getField_cons (q : String × Val) (d : Doc) (k : String) :
    getField (q :: d) k = if q.1 == k then some q.2 else getField d k := by
  unfold getField
  rw [List.find?_cons]
  by_cases h : q.1 = k
  · rw [show (q.1 == k) = true by simp [h]]
    rfl
  · rw [show (q.1 == k) = false by simp [h]]
    rfl

lemma eraseField_cons (q : String × Val) (d : Doc) (k : String) :
    eraseField (q :: d) k = if q.1 == k then eraseField d k else q :: eraseField d k := by
  unfold eraseField
  rw [List.filter_cons]
  by_cases h : q.1 = k
  · rw [show (q.1 == k) = true by simp [h]]
    rfl
  · rw [show (q.1 == k) = false by simp [h]]
    rfl

lemma getField_eraseField_ne (d : Doc) (k k' : String) (h : k' ≠ k) :
    getField (eraseField d k) k' = getField d k' := by
  induction d with
  | nil => rfl
  | cons q d ih =>
    rw [eraseField_cons, getField_cons]
    by_cases hq : q.1 = k
    · rw [show (q.1 == k) = true by simp [hq], if_pos rfl, ih,
          show (q.1 == k') = false by simp [hq, Ne.symm h]]
      rfl
    · rw [show (q.1 == k) = false by simp [hq]]
      rw [show (if (false = true) then eraseField d k else q :: eraseField d k)
            = q :: eraseField d k from rfl]
      rw [getField_cons, ih]

lemma getField_append (d₁ d₂ : Doc) (k : String) :
    getField (d₁ ++ d₂) k = ((getField d₁ k).or (getField d₂ k)) := by
  unfold getField
  rw [List.find?_append]
  cases List.find? (fun p => p.1 == k) d₁ <;> simp

lemma getField_insertField_self (d : Doc) (k : String) (v : Val) :
    getField (insertField d k v) k = some v := by
  rw [insertField, getField_append]
  rw [show getField (eraseField d k) k = none from getField_eraseField_self d k]
  simp [getField]

lemma getField_insertField_ne (d : Doc) (k k' : String) (v : Val) (h : k' ≠ k) :
    getField (insertField d k v) k' = getField d k' := by
  rw [insertField, getField_append, getField_eraseField_ne d k k' h]
  rw [show getField [(k, v)] k' = none by simp [getField, Ne.symm h]]
  cases getField d k' <;> simp

lemma mergeFields_cons (d : Doc) (q : String × Val) (u : Doc) :
    mergeFields d (q :: u) = mergeFields (insertField d q.1 q.2) u :=
  rfl

lemma mergeFields_append_single (d u : Doc) (k : String) (v : Val) :
    mergeFields d (u ++ [(k, v)]) = insertField (mergeFields d u) k v := by
  simp [mergeFields, List.foldl_append]

lemma getField_mergeFields_of_none (u : Doc) (k : String) (h : getField u k = none)
    (d : Doc) :
    getField (mergeFields d u) k = getField d k := by
  induction u generalizing d with
  | nil => rfl
  | cons q u ih =>
    rw [mergeFields_cons]
    rw [getField_cons] at h
    by_cases hq : (q.1 == k) = true
    · rw [if_pos hq] at h; cases h
    · rw [if_neg hq] at h
      rw [ih h]
      exact getField_insertField_ne d q.1 k q.2 (fun hc => hq (by simp [hc]))

lemma getField_eq_none (u : Doc) (k : String) (h : ∀ p ∈ u, p.1 ≠ k) :
    getField u k = none := by
  unfold getField
  rw [List.find?_eq_none.mpr]
  · rfl
  · intro x hx
    simpa using h x hx

lemma mem_of_mem_eraseField (p : String × Val) (d : Doc) (k : String)
    (h : p ∈ eraseField d k) : p ∈ d :=
  (List.mem_filter.mp h).1

lemma ne_of_mem_eraseField (p : String × Val) (d : Doc) (k : String)
    (h : p ∈ eraseField d k) : p.1 ≠ k := by
  have := (List.mem_filter.mp h).2
  simpa using this

lemma update_event_ok (db : EventsDB) (event_id : String) (updates : Doc) (user_id : String)
    (now : Val) (db' : EventsDB) (newDoc : Doc)
    (h : update_event db event_id updates user_id now = .ok (db', newDoc)) :
    ∃ pr, db.events.find? (fun p => p.1 == event_id) = some pr ∧
      newDoc = mergeFields pr.2
        (insertField (eraseField (eraseField updates "created_by") "created_at")
          "updated_at" now) := by
  unfold update_event at h
  split at h
  next => cases h
  next pr hpr =>
    split at h
    next hcb =>
      injection h with h2
      rw [Prod.mk.injEq] at h2
      exact ⟨pr, hpr, h2.2.symm⟩
    next => cases h

lemma timeLe_trans (a b c : RsvpEntry) (hab : timeLe a b = true)
    (hbc : timeLe b c = true) : timeLe a c = true := by
  simp only [timeLe, decide_eq_true_eq] at hab hbc ⊢
  omega

lemma timeLe_total (a b : RsvpEntry) : (timeLe a b || timeLe b a) = true := by
  simp only [timeLe, Bool.or_eq_true, decide_eq_true_eq]
  omega

end HomeStand

namespace HomeStand

/-! The claims. -/

/-- Claim C1: a create_rsvp call on an existing event whose stored `rsvp_count` is at or over its `capacity` (and where no earlier check fires: the caller holds no active reservation for the event) fails with `EventFull`, and the store is unchanged: no reservation document is written and `rsvp_count` keeps its value. -/
theorem create_rsvp_full_event_fails (db : DB) (event_id user_id newId : String) (now : Nat)
    (ev : Event) (hev : findEvent db event_id = some ev)
    (hdup : hasActiveRsvp db user_id event_id = false)
    (hfull : ev.capacity.getD 0 ≤ ev.rsvp_count.getD 0) :
    create_rsvp db event_id user_id newId now = .error .EventFull ∧
    applyOp db (.create event_id user_id newId now) = db := by
  have h1 : create_rsvp db event_id user_id newId now = .error .EventFull := by
    simp [create_rsvp, hev, hdup, hfull]
  exact ⟨h1, by simp [applyOp, h1]⟩

/-- Witness for C1: a concrete full event on which the theorem's hypotheses hold. -/
theorem create_rsvp_full_event_fails_witness :
    findEvent dbW1 "E" = some evW1 ∧ hasActiveRsvp dbW1 "A" "E" = false ∧
    evW1.capacity.getD 0 ≤ evW1.rsvp_count.getD 0 ∧
    (create_rsvp dbW1 "E" "A" "r1" 0 = .error .EventFull ∧
     applyOp dbW1 (.create "E" "A" "r1" 0) = dbW1) :=
  ⟨by decide, by decide, by decide,
   create_rsvp_full_event_fails dbW1 "E" "A" "r1" 0 evW1 (by decide) (by decide) (by decide)⟩

/-- Counterexample to claim C2: `capacity = 0` is not treated as unlimited. On a capacity-0 event with `rsvp_count = 0` and no reservation at all, create_rsvp fails with `EventFull`, refuting "never fails with EventFull, whatever the current rsvp_count is". -/
theorem capacity_zero_not_unlimited_cex :
    create_rsvp dbC2 "Z" "A" "r1" 0 = .error .EventFull := by
  rfl

/-- Claim C2 as amended: `capacity = 0` means zero capacity, not unlimited. On any existing event whose capacity (default 0) is 0, a create_rsvp call by a user without an active duplicate always fails with `EventFull`, whatever the stored `rsvp_count`. -/
theorem capacity_zero_always_full (db : DB) (event_id user_id newId : String) (now : Nat)
    (ev : Event) (hev : findEvent db event_id = some ev)
    (hcap : ev.capacity.getD 0 = 0)
    (hdup : hasActiveRsvp db user_id event_id = false) :
    create_rsvp db event_id user_id newId now = .error .EventFull := by
  simp [create_rsvp, hev, hdup, hcap]

/-- Witness for the amended C2: a capacity-0 event with counter 7. -/
theorem capacity_zero_always_full_witness :
    findEvent dbW2 "Z" = some evW2 ∧ evW2.capacity.getD 0 = 0 ∧
    hasActiveRsvp dbW2 "A" "Z" = false ∧
    create_rsvp dbW2 "Z" "A" "r1" 0 = .error .EventFull :=
  ⟨by decide, by decide, by decide,
   capacity_zero_always_full dbW2 "Z" "A" "r1" 0 evW2 (by decide) (by decide) (by decide)⟩

/-- Counterexample to claim C3 as stated: starting from a store satisfying the counter-consistency invariant, the sequence create A, create B, cancel A, cancel A (the same reservation cancelled twice, which the code permits) ends with `rsvp_count = 0` while one active reservation remains, so the invariant is broken. -/
theorem counter_consistency_cex :
    counterConsistent dbC3 = true ∧
    counterConsistent (runOps dbC3 opsC3) = false ∧
    get_event_rsvp_count (runOps dbC3 opsC3) "E" = 0 ∧
    activeCountFor (runOps dbC3 opsC3).rsvps "E" = 1 := by
  decide

/-- Claim C3 as amended: after any sequence of create/cancel calls starting from a store satisfying the counter-consistency invariant — provided each create uses a fresh store-assigned document id and no cancel targets a reservation that is already cancelled — every event's `rsvp_count` equals its number of active reservation documents. -/
theorem counter_consistency_preserved (db : DB) (ops : List Op)
    (hwf : ((db.rsvps).map (fun p => p.1)).Nodup)
    (hok : opsOk db ops = true)
    (hinv : counterConsistent db = true) :
    counterConsistent (runOps db ops) = true := by
  induction ops generalizing db with
  | nil => exact hinv
  | cons op rest ih =>
    simp only [opsOk, Bool.and_eq_true] at hok
    exact ih (applyOp db op) (applyOp_wf db op hwf hok.1) hok.2
      (applyOp_counterConsistent db op hwf hok.1 hinv)

/-- Witness for the amended C3: two creates, a cancel and a re-create on a two-seat event keep the invariant. -/
theorem counter_consistency_preserved_witness :
    ((dbW3.rsvps).map (fun p => p.1)).Nodup ∧ opsOk dbW3 opsW3 = true ∧
    counterConsistent dbW3 = true ∧
    counterConsistent (runOps dbW3 opsW3) = true :=
  ⟨by decide, by decide, by decide,
   counter_consistency_preserved dbW3 opsW3 (by decide) (by decide) (by decide)⟩

/-- Claim C4: when a (user, event) pair already has an active reservation on an existing event, a second create_rsvp call for the pair fails with `RSVPAlreadyExists` and leaves the store unchanged. -/
theorem create_rsvp_duplicate_fails (db : DB) (event_id user_id newId : String) (now : Nat)
    (ev : Event) (hev : findEvent db event_id = some ev)
    (hdup : hasActiveRsvp db user_id event_id = true) :
    create_rsvp db event_id user_id newId now = .error .RSVPAlreadyExists ∧
    applyOp db (.create event_id user_id newId now) = db := by
  have h1 : create_rsvp db event_id user_id newId now = .error .RSVPAlreadyExists := by
    simp [create_rsvp, hev, hdup]
  exact ⟨h1, by simp [applyOp, h1]⟩

/-- Witness for C4: user A holds an active reservation on event E and calls create_rsvp again. -/
theorem create_rsvp_duplicate_fails_witness :
    findEvent dbW4 "E" = some evW4 ∧ hasActiveRsvp dbW4 "A" "E" = true ∧
    (create_rsvp dbW4 "E" "A" "r2" 9 = .error .RSVPAlreadyExists ∧
     applyOp dbW4 (.create "E" "A" "r2" 9) = dbW4) :=
  ⟨by decide, by decide,
   create_rsvp_duplicate_fails dbW4 "E" "A" "r2" 9 evW4 (by decide) (by decide)⟩

/-- Claim C5: a cancel_rsvp call whose acting user differs from the reservation's `user_id` fails with `CancellationNotAllowed` and leaves the store unchanged. -/
theorem cancel_rsvp_not_owner_fails (db : DB) (rsvp_id user_id : String) (now : Nat)
    (r : Rsvp) (hr : findRsvp db rsvp_id = some r) (hne : r.user_id ≠ user_id) :
    cancel_rsvp db rsvp_id user_id now = .error .CancellationNotAllowed ∧
    applyOp db (.cancel rsvp_id user_id now) = db := by
  have h1 : cancel_rsvp db rsvp_id user_id now = .error .CancellationNotAllowed := by
    simp [cancel_rsvp, hr, hne]
  exact ⟨h1, by simp [applyOp, h1]⟩

/-- Witness for C5: user B tries to cancel user A's reservation. -/
theorem cancel_rsvp_not_owner_fails_witness :
    findRsvp dbW5 "r1" = some rW5 ∧ rW5.user_id ≠ "B" ∧
    (cancel_rsvp dbW5 "r1" "B" 4 = .error .CancellationNotAllowed ∧
     applyOp dbW5 (.cancel "r1" "B" 4) = dbW5) :=
  ⟨by decide, by decide,
   cancel_rsvp_not_owner_fails dbW5 "r1" "B" 4 rW5 (by decide) (by decide)⟩

/-- Counterexample to claim C6 at the boundary: when the event's `start_time` equals the current time the source's strict comparison `utcnow() > start` does not fire, so the cancellation succeeds instead of failing with `CancellationNotAllowed`. -/
theorem cancel_rsvp_boundary_cex :
    (cancel_rsvp dbC6 "r1" "A" 5).isOk = true := by
  decide

/-- Claim C6 as amended: a cancel_rsvp call on a reservation whose parent event has a `start_time` strictly before the current time fails with `CancellationNotAllowed` (whoever the acting user is: a non-owner hits the same error at the ownership check). -/
theorem cancel_rsvp_started_event_fails (db : DB) (rsvp_id user_id : String) (now : Nat)
    (r : Rsvp) (ev : Event) (t : Nat)
    (hr : findRsvp db rsvp_id = some r)
    (hev : findEvent db r.event_id = some ev)
    (ht : ev.start_time = some t) (hlt : t < now) :
    cancel_rsvp db rsvp_id user_id now = .error .CancellationNotAllowed := by
  by_cases h : r.user_id = user_id
  · simp [cancel_rsvp, hr, h, hev, ht, hlt]
  · simp [cancel_rsvp, hr, h]

/-- Witness for the amended C6: cancelling at time 9 a reservation on an event that started at time 5. -/
theorem cancel_rsvp_started_event_fails_witness :
    findRsvp dbW6 "r1" = some rW6 ∧ findEvent dbW6 rW6.event_id = some evW6 ∧
    evW6.start_time = some 5 ∧ 5 < 9 ∧
    cancel_rsvp dbW6 "r1" "A" 9 = .error .CancellationNotAllowed :=
  ⟨by decide, by decide, by decide, by decide,
   cancel_rsvp_started_event_fails dbW6 "r1" "A" 9 rW6 evW6 5 (by decide) (by decide)
     (by decide) (by decide)⟩

/-- Claim C7: an owner's cancel_rsvp before event start on a reservation whose status is already "cancelled" does not fail: the transaction makes no status check, sets status "cancelled" again and decrements the event's `rsvp_count` once more, floored at 0 (the subtraction below is truncated natural subtraction, the model of the source's `max(0, count - 1)`). -/
theorem cancel_rsvp_cancelled_again (db : DB) (rid u : String) (now : Nat)
    (r : Rsvp) (ev : Event)
    (hr : findRsvp db rid = some r)
    (hst : r.status = "cancelled")
    (hu : r.user_id = u)
    (hev : findEvent db r.event_id = some ev)
    (ht : ∀ t, ev.start_time = some t → ¬ t < now) :
    (cancel_rsvp db rid u now).isOk = true ∧
    findRsvp (applyOp db (Op.cancel rid u now)) rid = some { r with status := "cancelled" } ∧
    get_event_rsvp_count (applyOp db (Op.cancel rid u now)) r.event_id
      = ev.rsvp_count.getD 0 - 1 := by
  have hsucc : cancel_rsvp db rid u now =
      .ok { events := setEventCount db.events r.event_id (max 0 (ev.rsvp_count.getD 0 - 1)),
            rsvps := setRsvpStatus db.rsvps rid "cancelled" } := by
    cases hstt : ev.start_time with
    | none => simp [cancel_rsvp, hr, hu, hev, hstt]
    | some t =>
      have hnt : ¬ t < now := ht t hstt
      simp [cancel_rsvp, hr, hu, hev, hstt, hnt]
  have hap : applyOp db (Op.cancel rid u now) =
      { events := setEventCount db.events r.event_id (max 0 (ev.rsvp_count.getD 0 - 1)),
        rsvps := setRsvpStatus db.rsvps rid "cancelled" } := by
    rw [applyOp_cancel, hsucc]
  refine ⟨by rw [hsucc]; rfl, ?_, ?_⟩
  · rw [hap]
    unfold findRsvp at hr ⊢
    rcases Option.map_eq_some'.mp hr with ⟨q, hq, hq2⟩
    simp [find_setRsvpStatus, hq, hq2]
  · rw [hap]
    unfold get_event_rsvp_count
    unfold findEvent at hev ⊢
    rcases Option.map_eq_some'.mp hev with ⟨q, hq, hq2⟩
    simp [find_setEventCount, hq, hq2, Nat.zero_max]

/-- Witness for C7: re-cancelling an already cancelled reservation while the counter is 0 keeps it at 0. -/
theorem cancel_rsvp_cancelled_again_witness :
    (cancel_rsvp dbW7 "r1" "A" 9).isOk = true ∧
    findRsvp (applyOp dbW7 (Op.cancel "r1" "A" 9)) "r1"
      = some { rW7 with status := "cancelled" } ∧
    get_event_rsvp_count (applyOp dbW7 (Op.cancel "r1" "A" 9)) rW7.event_id
      = evW7.rsvp_count.getD 0 - 1 :=
  cancel_rsvp_cancelled_again dbW7 "r1" "A" 9 rW7 evW7 (by decide) (by decide) (by decide)
    (by decide) (fun t h => nomatch h)

/-- Claim C8: a successful update_event keeps `created_by` and `created_at` as stored even when the updates dict supplies values for them, sets `updated_at` to the clock reading, and leaves any field not named in the updates (and distinct from `updated_at`) at its previous value. -/
theorem update_event_protected_fields (db : EventsDB) (event_id : String) (updates : Doc)
    (user_id : String) (now : Val) (db' : EventsDB) (newDoc d : Doc) (k : String)
    (hd : (db.events.find? (fun p => p.1 == event_id)).map (fun p => p.2) = some d)
    (hok : update_event db event_id updates user_id now = .ok (db', newDoc))
    (hk1 : ∀ p ∈ updates, p.1 ≠ k) (hk2 : k ≠ "updated_at") :
    getField newDoc "created_by" = getField d "created_by" ∧
    getField newDoc "created_at" = getField d "created_at" ∧
    getField newDoc "updated_at" = some now ∧
    getField newDoc k = getField d k := by
  obtain ⟨pr, hpr, hnew⟩ := update_event_ok db event_id updates user_id now db' newDoc hok
  have hd' : pr.2 = d := by
    rw [hpr] at hd
    simpa using hd
  subst hd'
  have hsplit : mergeFields pr.2
      (insertField (eraseField (eraseField updates "created_by") "created_at")
        "updated_at" now)
      = insertField
          (mergeFields pr.2
            (eraseField (eraseField (eraseField updates "created_by") "created_at")
              "updated_at"))
          "updated_at" now := by
    rw [insertField, mergeFields_append_single]
  rw [hnew, hsplit]
  have hmem3 : ∀ p, p ∈ eraseField (eraseField (eraseField updates "created_by")
      "created_at") "updated_at" → p ∈ updates := by
    intro p hp
    exact mem_of_mem_eraseField p updates "created_by"
      (mem_of_mem_eraseField p (eraseField updates "created_by") "created_at"
        (mem_of_mem_eraseField p
          (eraseField (eraseField updates "created_by") "created_at") "updated_at" hp))
  refine ⟨?_, ?_, ?_, ?_⟩
  · rw [getField_insertField_ne _ _ _ _ (by decide)]
    apply getField_mergeFields_of_none
    apply getField_eq_none
    intro p hp
    exact ne_of_mem_eraseField p updates "created_by"
      (mem_of_mem_eraseField p (eraseField updates "created_by") "created_at"
        (mem_of_mem_eraseField p
          (eraseField (eraseField updates "created_by") "created_at") "updated_at" hp))
  · rw [getField_insertField_ne _ _ _ _ (by decide)]
    apply getField_mergeFields_of_none
    apply getField_eq_none
    intro p hp
    exact ne_of_mem_eraseField p (eraseField updates "created_by") "created_at"
      (mem_of_mem_eraseField p
        (eraseField (eraseField updates "created_by") "created_at") "updated_at" hp)
  · exact getField_insertField_self _ _ _
  · rw [getField_insertField_ne _ _ _ _ hk2]
    apply getField_mergeFields_of_none
    apply getField_eq_none
    intro p hp
    exact hk1 p (hmem3 p hp)

/-- Witness for C8: an update trying to overwrite `created_by` and `created_at` while setting a new `location`. -/
theorem update_event_protected_fields_witness :
    (dbW8.events.find? (fun p => p.1 == "E")).map (fun p => p.2) = some docW8 ∧
    update_event dbW8 "E" updW8 "alice" (Val.nat 5) = .ok (dbW8', newDocW8) ∧
    (∀ p ∈ updW8, p.1 ≠ "title") ∧
    (getField newDocW8 "created_by" = getField docW8 "created_by" ∧
     getField newDocW8 "created_at" = getField docW8 "created_at" ∧
     getField newDocW8 "updated_at" = some (Val.nat 5) ∧
     getField newDocW8 "title" = getField docW8 "title") :=
  ⟨by decide, by rfl, by decide,
   update_event_protected_fields dbW8 "E" updW8 "alice" (Val.nat 5) dbW8' newDocW8 docW8
     "title" (by decide) (by rfl) (by decide) (by decide)⟩

/-- Counterexample to claim C9 as stated, on both of its failing parts.  A
user with one active reservation whose parent event was deleted gets an empty
list from get_user_rsvps: the loop skips reservations whose event no longer
exists, so there is not one entry per active reservation.  And on a store
whose entries mix a present and a missing `start_time`, the source never
places the missing entry last: its sort compares a timezone-aware parsed
timestamp against the naive `datetime.max` sentinel and raises an uncaught
TypeError (modelled as `none`), so no sorted list is returned at all. -/
theorem get_user_rsvps_cex :
    (dbC9.rsvps.filter (fun p => p.2.user_id == "A" && p.2.status == "active")).length = 1 ∧
    get_user_rsvps dbC9 "A" = some [] ∧
    get_user_rsvps dbC9m "A" = none := by
  refine ⟨by decide, ?_, by decide⟩
  unfold get_user_rsvps
  rw [show activeEntries dbC9 "A" = [] from rfl]
  simp [List.mergeSort_nil]

/-- Claim C9 as amended: whenever get_user_rsvps returns a list (it raises an
uncaught TypeError — `none` — exactly when the entries mix present and missing
`start_time`s, since the stored Z-suffixed timestamps parse timezone-aware and
`datetime.max` is naive), that list holds one entry per active reservation of
the user whose parent event still exists (a permutation of the embedded
entries, orphaned reservations skipped), it is pairwise ordered ascending by
the parsed `start_time`s, and when no entry has a `start_time` it is the
entries in store order (every sort key is the equal `datetime.max`). -/
theorem get_user_rsvps_sorted_perm (db : DB) (u : String) (l : List RsvpEntry)
    (h : get_user_rsvps db u = some l) :
    l.Perm (activeEntries db u) ∧
    l.Pairwise (fun x y => timeLe x y = true) ∧
    ((activeEntries db u).all (fun x => x.event.start_time.isNone) = true →
      l = activeEntries db u) := by
  unfold get_user_rsvps at h
  by_cases h1 : (activeEntries db u).all (fun x => x.event.start_time.isSome) = true
  · rw [if_pos h1] at h
    injection h with h'
    subst h'
    refine ⟨List.mergeSort_perm _ _, List.sorted_mergeSort timeLe_trans timeLe_total _, ?_⟩
    intro hnone
    have hempty : activeEntries db u = [] := by
      cases hae : activeEntries db u with
      | nil => rfl
      | cons x xs =>
        rw [hae] at h1 hnone
        simp only [List.all_cons, Bool.and_eq_true] at h1 hnone
        cases hx : x.event.start_time with
        | none => rw [hx] at h1; simp at h1
        | some t => rw [hx] at hnone; simp at hnone
    rw [hempty]
    exact List.mergeSort_nil
  · rw [if_neg h1] at h
    by_cases h2 : (activeEntries db u).all (fun x => x.event.start_time.isNone) = true
    · rw [if_pos h2] at h
      injection h with h'
      subst h'
      refine ⟨List.Perm.refl _, ?_, fun _ => rfl⟩
      apply List.pairwise_of_forall_mem_list
      intro x hx y hy
      have hxn := List.all_eq_true.mp h2 x hx
      have hyn := List.all_eq_true.mp h2 y hy
      rw [Option.isNone_iff_eq_none] at hxn hyn
      simp [timeLe, hxn, hyn]
    · rw [if_neg h2] at h
      cases h

/-- Witness for the amended C9: a store whose two embedded events both lack a
`start_time`; the call succeeds and returns the entries in store order. -/
theorem get_user_rsvps_sorted_perm_witness :
    get_user_rsvps dbW9 "A" = some (activeEntries dbW9 "A") ∧
    ((activeEntries dbW9 "A").Perm (activeEntries dbW9 "A") ∧
     (activeEntries dbW9 "A").Pairwise (fun x y => timeLe x y = true) ∧
     ((activeEntries dbW9 "A").all (fun x => x.event.start_time.isNone) = true →
       activeEntries dbW9 "A" = activeEntries dbW9 "A")) :=
  ⟨by decide, get_user_rsvps_sorted_perm dbW9 "A" (activeEntries dbW9 "A") (by decide)⟩

/-- Claim C10: get_event_rsvp_count returns 0 for an event id that does not resolve, and the stored `rsvp_count` (default 0 when the field is absent) for an existing event; it raises nothing. -/
theorem get_event_rsvp_count_spec (db : DB) (event_id : String) :
    get_event_rsvp_count db event_id
      = ((findEvent db event_id).map (fun ev => ev.rsvp_count.getD 0)).getD 0 := by
  cases h : findEvent db event_id <;> simp [get_event_rsvp_count, h]

end HomeStand
